import Mathlib

/-!
Shallow embedding of the LIT-Testing repository (RSSI multilateration).

Real-valued model of src/PDU_GUI_GIF/rssi.py, rational-valued model of
the buffer / filtering / averaging code in src/PDU_MULTIPLE_READ/rssi_values.py
and src/PDU_GUI_BASE/rssi_values.py, and of the anchor-selection logic in
src/PDU_GUI/multilateration.py.

Python floats are modelled as real numbers where the exponential path-loss
formula is involved, and as rational numbers in the buffer, averaging and
filtering code, whose arithmetic is ring arithmetic and comparisons.
-/

namespace Gif

/-- Embeds RSSI.meters_to_feet from src/PDU_GUI_GIF/rssi.py: feet = meters * 3.28084. -/
def meters_to_feet (meters : ℝ) : ℝ := meters * 3.28084

/-- Embeds the RSSI class of src/PDU_GUI_GIF/rssi.py: reference strength at one
meter (RSSI_NAUGHT) and path loss exponent n. -/
structure RSSI where
  RSSI_NAUGHT : ℝ
  n : ℝ

/-- Embeds RSSI.get_distance from src/PDU_GUI_GIF/rssi.py:
meters_to_feet(10 ** ((RSSI_NAUGHT - signal_strength) / (10 * n))). -/
noncomputable def RSSI.get_distance (m : RSSI) (signal_strength : ℝ) : ℝ :=
  meters_to_feet ((10 : ℝ) ^ ((m.RSSI_NAUGHT - signal_strength) / (10 * m.n)))

/-- Embeds RSSI.set_rssi_naught from src/PDU_GUI_GIF/rssi.py: replaces the
reference strength, leaving n untouched. -/
def RSSI.set_rssi_naught (m : RSSI) (v : ℝ) : RSSI := { m with RSSI_NAUGHT := v }

end Gif

namespace MulRead

/-- Embeds RSSI_Calculator.get_average_reading from
src/PDU_MULTIPLE_READ/rssi_values.py, lines 152-165, applied to the deque of
one tower: if the deque is non-empty (Python truthiness) return sum divided by
length, else return 0. Polymorphic so it can be read at ℚ and at ℝ. -/
def get_average_reading {α : Type} [DivisionRing α] (readings : List α) : α :=
  if readings.isEmpty then 0 else readings.sum / readings.length

/-- Embeds RSSI_Calculator.get_average_distance from
src/PDU_MULTIPLE_READ/rssi_values.py, lines 167-179, applied to the deque of
one tower: if the deque is non-empty return sum divided by length, else 0. -/
def get_average_distance {α : Type} [DivisionRing α] (distances : List α) : α :=
  if distances.isEmpty then 0 else distances.sum / distances.length

/-- np.mean over a list, as used by z_score_filter. -/
def npMean (data : List ℚ) : ℚ := data.sum / data.length

/-- The square of np.std over a list (the population variance).
z_score_filter in the source compares abs((x - avg) / stdev) with the
threshold where stdev = sqrt(variance); the embedding compares squares to stay
inside ℚ, which is equivalent (see zscore_sqrt_free below). -/
def npVar (data : List ℚ) : ℚ :=
  (data.map (fun x => (x - npMean data)^2)).sum / data.length

/-- Embeds RSSI_Calculator.z_score_filter from
src/PDU_MULTIPLE_READ/rssi_values.py, lines 211-217: keep x iff
stdev == 0 or abs((x - avg)/stdev) < threshold. The standard-deviation test is
encoded without the square root: for variance v > 0 and stdev = sqrt v,
abs((x-avg)/stdev) < t is equivalent to 0 <= t and (x-avg)^2 < t^2 * v. -/
def z_score_filter (data : List ℚ) (threshold : ℚ) : List ℚ :=
  data.filter (fun x =>
    decide (npVar data = 0 ∨
      (0 ≤ threshold ∧ (x - npMean data)^2 < threshold^2 * npVar data)))

/-- np.percentile with the default linear-interpolation method: on the sorted
data s of length n, position = p/100 * (n-1); with i the floor of the position
and g its fractional part, the result is s[i] + g * (s[i+1] - s[i]). -/
def percentile (data : List ℚ) (p : ℚ) : ℚ :=
  let s := data.insertionSort (· ≤ ·)
  let pos := p / 100 * ((data.length : ℚ) - 1)
  let i := (⌊pos⌋).toNat
  let g := pos - (i : ℚ)
  s.getD i 0 + g * (s.getD (i+1) (s.getD i 0) - s.getD i 0)

/-- Embeds RSSI_Calculator.iqr_filter from
src/PDU_MULTIPLE_READ/rssi_values.py, lines 219-227: q1, q3 are the 25th/75th
percentiles, and x is kept iff q1 - threshold*iqr <= x <= q3 + threshold*iqr. -/
def iqr_filter (data : List ℚ) (threshold : ℚ) : List ℚ :=
  let q1 := percentile data 25
  let q3 := percentile data 75
  let iqr := q3 - q1
  let lower_bound := q1 - threshold * iqr
  let upper_bound := q3 + threshold * iqr
  data.filter (fun x => decide (lower_bound ≤ x ∧ x ≤ upper_bound))

/-- Embeds RSSI_Calculator.filter_outliers from
src/PDU_MULTIPLE_READ/rssi_values.py, lines 187-209: an empty batch returns []
at once; then the method name dispatches to z_score_filter or iqr_filter, and
any other name raises ValueError (modelled as Except.error). -/
def filter_outliers (data : List ℚ) (method : String) (threshold : ℚ) :
    Except String (List ℚ) :=
  if data.isEmpty then .ok []
  else if method = "z_score" then .ok (z_score_filter data threshold)
  else if method = "iqr" then .ok (iqr_filter data threshold)
  else .error ("Invalid outlier detection method: " ++ method)

end MulRead

namespace Buffer

/-- Embeds RSSI_Calculator.add_reading_and_distance from
src/PDU_GUI_BASE/rssi_values.py, lines 59-74, for one tower: append the
reading, append the distance computed from the just-appended reading
(add_distance reads readings[-1]), then pop the oldest reading and distance if
the reading count exceeds max_readings. The deque-based variant in
src/PDU_MULTIPLE_READ/rssi_values.py (maxlen 100) has the same one-step
semantics with max_readings = 100. The distance function is a parameter. -/
def add_reading_and_distance {α β : Type} (dist : α → β) (max_readings : ℕ)
    (st : List α × List β) (reading : α) : List α × List β :=
  let readings := st.1 ++ [reading]
  let distances := st.2 ++ [dist reading]
  if max_readings < readings.length then (readings.drop 1, distances.drop 1)
  else (readings, distances)

/-- Admission of a sequence of samples one at a time in order, each through
add_reading_and_distance. -/
def add_readings_seq {α β : Type} (dist : α → β) (max_readings : ℕ)
    (st : List α × List β) (xs : List α) : List α × List β :=
  xs.foldl (add_reading_and_distance dist max_readings) st

end Buffer

namespace Gui

/-- One tower of the calculator state read by src/PDU_GUI/multilateration.py:
its deque of RSSI readings and its deque of derived distances. -/
structure Tower where
  readings : List ℚ
  distances : List ℚ

/-- Embeds Multilateration.select_towers_for_multilateration from
src/PDU_GUI/multilateration.py, lines 45-68: the active towers are those with
at least one reading. -/
def select_towers (ts : List Tower) : List Tower :=
  ts.filter (fun t => !t.readings.isEmpty)

/-- The distance sanity test of Multilateration.multilaterate, lines 90-95:
a tower is kept iff its average distance is not strictly greater than 1000. -/
def distance_ok (t : Tower) : Bool :=
  !(decide (1000 < MulRead.get_average_distance t.distances))

/-- An eligible tower in the sense of the spec: non-empty buffer and average
distance not exceeding the 1000 ft ceiling. -/
def eligible (t : Tower) : Bool :=
  !t.readings.isEmpty && distance_ok t

/-- Embeds the control flow of Multilateration.multilaterate from
src/PDU_GUI/multilateration.py, lines 70-125: if fewer than 3 active towers,
return None; keep the active towers whose average distance passes the sanity
test; if fewer than 3 remain, return None; otherwise hand the kept towers to
the least-squares optimizer, modelled as an abstract parameter opt. -/
def multilaterate (opt : List Tower → Option (ℚ × ℚ)) (ts : List Tower) :
    Option (ℚ × ℚ) :=
  if (select_towers ts).length < 3 then none
  else if ((select_towers ts).filter distance_ok).length < 3 then none
  else opt ((select_towers ts).filter distance_ok)

end Gui

namespace GuiBase

/-- The calculator state of src/PDU_GUI_BASE/rssi_values.py restricted to one
tower, together with the RSSI model object it owns: reference strength,
exponent, reading cap (max_readings, 1 in the source), and the two buffers. -/
structure Calculator where
  model : Gif.RSSI
  max_readings : ℕ
  readings : List ℝ
  distances : List ℝ

/-- Embeds RSSI_Calculator.add_reading_and_distance from
src/PDU_GUI_BASE/rssi_values.py, lines 59-74 together with add_distance,
lines 76-85: append the reading, append the distance of the most recent
reading (readings[-1], i.e. the one just appended) computed with the model in
effect now, then pop the oldest of both if over max_readings. -/
noncomputable def Calculator.add_reading_and_distance (c : Calculator) (reading : ℝ) :
    Calculator :=
  let readings := c.readings ++ [reading]
  let distances := c.distances ++ [c.model.get_distance reading]
  if c.max_readings < readings.length then
    { c with readings := readings.drop 1, distances := distances.drop 1 }
  else
    { c with readings := readings, distances := distances }

/-- Recalibration at the calculator level: self.RSSI.set_rssi_naught(v)
(src/PDU_GUI_GIF/rssi.py, lines 22-29) replaces the reference strength inside
the owned model object and touches nothing else. -/
def Calculator.set_rssi_naught (c : Calculator) (v : ℝ) : Calculator :=
  { c with model := c.model.set_rssi_naught v }

end GuiBase

/-- Claim C1 (code behavior at the failing input): on an empty buffer, both
get_average_reading and get_average_distance of
src/PDU_MULTIPLE_READ/rssi_values.py return the number 0, not an explicit
no-data result. -/
theorem C1_empty_buffer_averages_are_zero :
    MulRead.get_average_reading ([] : List ℚ) = 0 ∧
    MulRead.get_average_distance ([] : List ℚ) = 0 :=
  ⟨rfl, rfl⟩

/-- Claim C2, counterexample: with RSSI0 = 0 and n = -1 (which is nonzero),
the reading 0 is smaller than the reading 10, yet get_distance gives the
SMALLER distance to the smaller reading, so the conversion is not strictly
decreasing in the rssi argument for every nonzero n. -/
theorem C2_counterexample :
    (0 : ℝ) < 10 ∧ ((-1 : ℝ) ≠ 0) ∧
    Gif.RSSI.get_distance ⟨0, -1⟩ 0 < Gif.RSSI.get_distance ⟨0, -1⟩ 10 := by
  refine ⟨by norm_num, by norm_num, ?_⟩
  have h1 : Gif.RSSI.get_distance ⟨0, -1⟩ 0 = 3.28084 := by
    unfold Gif.RSSI.get_distance Gif.meters_to_feet
    norm_num
  have h2 : Gif.RSSI.get_distance ⟨0, -1⟩ 10 = 32.8084 := by
    unfold Gif.RSSI.get_distance Gif.meters_to_feet
    norm_num
  rw [h1, h2]
  norm_num

/-- Claim C2, amended: for every choice of RSSI0 and every POSITIVE path-loss
exponent n, get_distance is strictly monotonically decreasing in the rssi
argument. -/
theorem C2_get_distance_strict_anti (m : Gif.RSSI) (r1 r2 : ℝ)
    (hn : 0 < m.n) (h : r1 < r2) :
    m.get_distance r2 < m.get_distance r1 := by
  unfold Gif.RSSI.get_distance Gif.meters_to_feet
  apply mul_lt_mul_of_pos_right _ (by norm_num : (0:ℝ) < 3.28084)
  rw [Real.rpow_lt_rpow_left_iff (by norm_num : (1:ℝ) < 10)]
  rw [div_lt_div_iff_of_pos_right]
  · linarith
  · positivity

/-- Witness for C2_get_distance_strict_anti at RSSI0 = -40, n = 2,
readings -60 < -50. -/
theorem C2_witness :
    (0 : ℝ) < 2 ∧
    Gif.RSSI.get_distance ⟨-40, 2⟩ (-50) < Gif.RSSI.get_distance ⟨-40, 2⟩ (-60) :=
  ⟨by norm_num, C2_get_distance_strict_anti ⟨-40, 2⟩ (-60) (-50)
    (by norm_num) (by norm_num)⟩

/-- Claim C4: for every reading and model parameters with n nonzero,
get_distance returns exactly 3.28084 * 10 ^ ((RSSI0 - rssi) / (10 * n)). -/
theorem C4_get_distance_formula (m : Gif.RSSI) (r : ℝ) (hn : m.n ≠ 0) :
    m.get_distance r = 3.28084 * (10 : ℝ) ^ ((m.RSSI_NAUGHT - r) / (10 * m.n)) := by
  unfold Gif.RSSI.get_distance Gif.meters_to_feet
  ring

/-- Witness for C4_get_distance_formula at RSSI0 = -40, n = 2, reading -60. -/
theorem C4_witness :
    ((2 : ℝ) ≠ 0) ∧
    Gif.RSSI.get_distance ⟨-40, 2⟩ (-60) =
      3.28084 * (10 : ℝ) ^ (((-40 : ℝ) - (-60)) / (10 * 2)) :=
  ⟨by norm_num, C4_get_distance_formula ⟨-40, 2⟩ (-60) (by norm_num)⟩

/-- Claim C8: recalibration via set_rssi_naught changes the stored reference
strength only: the readings and distances already in the buffers are
untouched, and a sample admitted afterwards has its distance computed with
the NEW reference value (and the usual cap eviction). -/
theorem C8_recalibration_frame (c : GuiBase.Calculator) (v : ℝ) :
    ((c.set_rssi_naught v).model = ⟨v, c.model.n⟩ ∧
     (c.set_rssi_naught v).readings = c.readings ∧
     (c.set_rssi_naught v).distances = c.distances) ∧
    ∀ r, ((c.set_rssi_naught v).add_reading_and_distance r).distances =
      (c.distances ++ [Gif.RSSI.get_distance ⟨v, c.model.n⟩ r]).drop
        (if c.max_readings < c.readings.length + 1 then 1 else 0) := by
  refine ⟨⟨rfl, rfl, rfl⟩, fun r => ?_⟩
  unfold GuiBase.Calculator.add_reading_and_distance GuiBase.Calculator.set_rssi_naught
    Gif.RSSI.set_rssi_naught
  by_cases h : c.max_readings < c.readings.length + 1 <;>
    simp [h, List.length_append]

/-- Claim C10: with nonzero n, get_distance is strictly positive for every
reading, and the average distance of a non-empty buffer whose entries all
come from get_distance is strictly positive; a reported 0 can only be the
empty-buffer default of get_average_distance. -/
theorem C10_distance_positive (m : Gif.RSSI) (hn : m.n ≠ 0) :
    (∀ r, 0 < m.get_distance r) ∧
    (∀ l : List ℝ, l ≠ [] → (∀ x ∈ l, ∃ r, x = m.get_distance r) →
      0 < MulRead.get_average_distance l) := by
  have hpos : ∀ r, 0 < m.get_distance r := by
    intro r
    unfold Gif.RSSI.get_distance Gif.meters_to_feet
    have h10 := Real.rpow_pos_of_pos (by norm_num : (0:ℝ) < 10)
      ((m.RSSI_NAUGHT - r) / (10 * m.n))
    nlinarith
  refine ⟨hpos, fun l hne hall => ?_⟩
  unfold MulRead.get_average_distance
  rw [if_neg (by simpa using hne)]
  apply div_pos
  · refine List.sum_pos l (fun x hx => ?_) hne
    obtain ⟨r, rfl⟩ := hall x hx
    exact hpos r
  · exact_mod_cast List.length_pos.mpr hne

/-- Witness for C10_distance_positive at RSSI0 = -40, n = 2, a buffer holding
the single distance of reading -60. -/
theorem C10_witness :
    ((2 : ℝ) ≠ 0) ∧ 0 < Gif.RSSI.get_distance ⟨-40, 2⟩ (-60) ∧
    0 < MulRead.get_average_distance [Gif.RSSI.get_distance ⟨-40, 2⟩ (-60)] :=
  ⟨by norm_num,
   (C10_distance_positive ⟨-40, 2⟩ (by norm_num)).1 (-60),
   (C10_distance_positive ⟨-40, 2⟩ (by norm_num)).2
     [Gif.RSSI.get_distance ⟨-40, 2⟩ (-60)] (by simp)
     (fun x hx => ⟨-60, by simpa using hx⟩)⟩

/-- Dropping the head after appending to a suffix commutes with taking the
suffix after appending, as long as the suffix index is in range. -/
lemma drop_one_drop_append {γ : Type} (L : List γ) (x : γ) (k : ℕ)
    (hk : k ≤ L.length) :
    (L.drop k ++ [x]).drop 1 = (L ++ [x]).drop (k + 1) := by
  rcases Nat.lt_or_ge k L.length with h | h
  · have h1 : (1 : ℕ) ≤ (L.drop k).length := by
      rw [List.length_drop]; omega
    rw [List.drop_append_of_le_length h1, List.drop_drop,
      List.drop_append_of_le_length (by omega : k + 1 ≤ L.length)]
  · have hk' : k = L.length := le_antisymm hk h
    subst hk'
    rw [List.drop_length]
    simp [List.drop_eq_nil_of_le]

/-- Closed form of a run of one-at-a-time admissions from an empty buffer:
the buffer keeps the last min(cap, length) samples, and the distance list is
the image of exactly those samples. -/
lemma add_readings_seq_from_empty {α β : Type} (dist : α → β) (cap : ℕ)
    (xs : List α) :
    Buffer.add_readings_seq dist cap ([], []) xs =
      (xs.drop (xs.length - cap), (xs.map dist).drop (xs.length - cap)) := by
  induction xs using List.reverseRecOn with
  | nil => simp [Buffer.add_readings_seq]
  | append_singleton ys y ih =>
      unfold Buffer.add_readings_seq at ih ⊢
      rw [List.foldl_append, ih]
      simp only [List.foldl_cons, List.foldl_nil]
      unfold Buffer.add_reading_and_distance
      have hmap : (ys ++ [y]).map dist = ys.map dist ++ [dist y] := by
        simp
      by_cases hc : cap ≤ ys.length
      · have hcond : cap < ((ys.drop (ys.length - cap)) ++ [y]).length := by
          rw [List.length_append, List.length_drop]; simp; omega
        rw [if_pos hcond]
        have hk1 : ys.length - cap ≤ ys.length := Nat.sub_le _ _
        have hk2 : ys.length - cap ≤ (ys.map dist).length := by
          rw [List.length_map]; exact hk1
        rw [drop_one_drop_append ys y _ hk1,
          drop_one_drop_append (ys.map dist) (dist y) _ hk2, hmap]
        have harith : (ys ++ [y]).length - cap = ys.length - cap + 1 := by
          rw [List.length_append]; simp; omega
        rw [harith]
      · have hcond : ¬ cap < ((ys.drop (ys.length - cap)) ++ [y]).length := by
          rw [List.length_append, List.length_drop]; simp; omega
        rw [if_neg hcond]
        have h0 : ys.length - cap = 0 := by omega
        have h0' : (ys ++ [y]).length - cap = 0 := by
          rw [List.length_append]; simp; omega
        rw [h0, h0', hmap]
        simp

/-- Claim C5: admitting cap + 1 distinct samples one at a time into an empty
buffer of capacity cap leaves exactly the last cap samples in insertion
order, with the distance list evicted in step (it is the image of exactly
those retained samples). -/
theorem C5_fifo_eviction {α β : Type} (dist : α → β) (cap : ℕ)
    (xs : List α) (hnd : xs.Nodup) (hlen : xs.length = cap + 1) :
    Buffer.add_readings_seq dist cap ([], []) xs =
      (xs.drop 1, (xs.map dist).drop 1) := by
  rw [add_readings_seq_from_empty, hlen]
  have h1 : cap + 1 - cap = 1 := by omega
  rw [h1]

/-- Witness for C5_fifo_eviction: capacity 2, samples 5, 6, 7, doubling as
the distance function: the buffer ends as the last two samples with their
two distances. -/
theorem C5_witness :
    ([5, 6, 7] : List ℚ).Nodup ∧
    Buffer.add_readings_seq (fun x : ℚ => 2 * x) 2 ([], []) [5, 6, 7] =
      ([6, 7], [12, 14]) := by
  have hnd : ([5, 6, 7] : List ℚ).Nodup := by norm_num
  refine ⟨hnd, (C5_fifo_eviction (fun x : ℚ => 2 * x) 2 [5, 6, 7] hnd rfl).trans ?_⟩
  norm_num

/-- Claim C3: whenever fewer than 3 towers are eligible (non-empty buffer and
average distance at most 1000 ft), multilaterate returns the unavailable
result None no matter what the optimizer would compute, i.e. without
invoking it. -/
theorem C3_insufficient_anchors (ts : List Gui.Tower)
    (h : (ts.filter Gui.eligible).length < 3)
    (opt : List Gui.Tower → Option (ℚ × ℚ)) :
    Gui.multilaterate opt ts = none := by
  have hfe : (Gui.select_towers ts).filter Gui.distance_ok =
      ts.filter Gui.eligible := by
    unfold Gui.select_towers
    rw [List.filter_filter]
    exact List.filter_congr (fun a _ => by unfold Gui.eligible; rw [Bool.and_comm])
  unfold Gui.multilaterate
  by_cases h1 : (Gui.select_towers ts).length < 3
  · rw [if_pos h1]
  · rw [if_neg h1, if_pos]
    rw [hfe]
    exact h

/-- Witness for C3_insufficient_anchors: one tower down, one with an
implausible 2000 ft average distance, two good ones: only 2 eligible, and
the solve returns None even though the optimizer would return a point. -/
theorem C3_witness :
    (([⟨[], []⟩, ⟨[-40], [2000]⟩, ⟨[-40], [5]⟩, ⟨[-50], [7]⟩] :
        List Gui.Tower).filter Gui.eligible).length < 3 ∧
    Gui.multilaterate (fun _ => some (150, 150))
      [⟨[], []⟩, ⟨[-40], [2000]⟩, ⟨[-40], [5]⟩, ⟨[-50], [7]⟩] = none := by
  have h : (([⟨[], []⟩, ⟨[-40], [2000]⟩, ⟨[-40], [5]⟩, ⟨[-50], [7]⟩] :
      List Gui.Tower).filter Gui.eligible).length < 3 := by
    norm_num [Gui.eligible, Gui.distance_ok, MulRead.get_average_distance,
      List.filter]
  exact ⟨h, C3_insufficient_anchors _ h _⟩

/-- Justification of the square-root-free z-score test used in
z_score_filter: over the reals, for positive variance v and stdev = sqrt v,
the source condition abs((x - mean) / stdev) < t is equivalent to the
encoded condition 0 <= t and (x - mean)^2 < t^2 * v. -/
lemma zscore_sqrt_free (x μ v t : ℝ) (hv : 0 < v) :
    |(x - μ) / Real.sqrt v| < t ↔ (0 ≤ t ∧ (x - μ)^2 < t^2 * v) := by
  have hs : 0 < Real.sqrt v := Real.sqrt_pos.mpr hv
  have hsq : Real.sqrt v ^ 2 = v := Real.sq_sqrt hv.le
  rw [abs_div, abs_of_pos hs, div_lt_iff hs]
  constructor
  · intro h
    have ht : 0 < t := by nlinarith [abs_nonneg (x - μ)]
    refine ⟨ht.le, ?_⟩
    nlinarith [sq_abs (x - μ), abs_nonneg (x - μ)]
  · rintro ⟨ht, h2⟩
    nlinarith [sq_abs (x - μ), abs_nonneg (x - μ),
      mul_nonneg ht (Real.sqrt_nonneg v)]

/-- The full retained-value condition of z_score_filter, sqrt-eliminated:
the source keeps x iff stdev == 0 or abs((x - mean)/stdev) < t, and with a
nonnegative variance this is exactly the condition encoded in the ℚ model. -/
lemma zscore_keep_iff (x μ v t : ℝ) (hv : 0 ≤ v) :
    (Real.sqrt v = 0 ∨ |(x - μ) / Real.sqrt v| < t) ↔
    (v = 0 ∨ (0 ≤ t ∧ (x - μ)^2 < t^2 * v)) := by
  rcases eq_or_lt_of_le hv with h0 | hpos
  · rw [← h0]
    simp
  · rw [or_iff_right (ne_of_gt (Real.sqrt_pos.mpr hpos)),
      or_iff_right (ne_of_gt hpos)]
    exact zscore_sqrt_free x μ v t hpos

/-- Any successful run of filter_outliers returns a sub-batch of its input:
both branches are a List.filter over the incoming batch. -/
lemma filter_outliers_ok_sublist (data : List ℚ) (m : String) (t : ℚ)
    (ys : List ℚ) (h : MulRead.filter_outliers data m t = .ok ys) :
    ys.Sublist data := by
  unfold MulRead.filter_outliers at h
  split at h
  · cases h
    exact List.nil_sublist _
  · split at h
    · cases h
      exact List.filter_sublist _
    · split at h
      · cases h
        exact List.filter_sublist _
      · cases h

/-- Claim C9: whatever the batch, the method and the threshold, a successful
filter_outliers returns a subsequence of the batch: retained values appear in
the input with relative order and multiplicity preserved, and no new values
are introduced. -/
theorem C9_filter_is_sublist (data : List ℚ) (m : String) (t : ℚ)
    (ys : List ℚ) (h : MulRead.filter_outliers data m t = .ok ys) :
    ys.Sublist data :=
  filter_outliers_ok_sublist data m t ys h

/-- Witness for C9_filter_is_sublist: z-score filtering [0,0,0,0,10] at
threshold 2 keeps [0,0,0,0], a subsequence of the input. -/
theorem C9_witness :
    MulRead.filter_outliers [0, 0, 0, 0, 10] "z_score" 2 = .ok [0, 0, 0, 0] ∧
    List.Sublist ([0, 0, 0, 0] : List ℚ) [0, 0, 0, 0, 10] := by
  have h : MulRead.filter_outliers [0, 0, 0, 0, 10] "z_score" 2 =
      .ok [0, 0, 0, 0] := by
    norm_num [MulRead.filter_outliers, MulRead.z_score_filter, MulRead.npVar,
      MulRead.npMean, List.filter]
  exact ⟨h, C9_filter_is_sublist _ _ _ _ h⟩

/-- Claim C6, counterexample: z-score filtering [0,0,0,0,10,1000] at the
default threshold 2 keeps [0,0,0,0,10]; filtering that once-filtered batch
again with the same method and threshold gives [0,0,0,0], so the filter is
not idempotent. -/
theorem C6_counterexample :
    MulRead.filter_outliers [0, 0, 0, 0, 10, 1000] "z_score" 2 =
      .ok [0, 0, 0, 0, 10] ∧
    MulRead.filter_outliers [0, 0, 0, 0, 10] "z_score" 2 = .ok [0, 0, 0, 0] ∧
    ([0, 0, 0, 0] : List ℚ) ≠ [0, 0, 0, 0, 10] := by
  refine ⟨?_, ?_, by simp⟩ <;>
    norm_num [MulRead.filter_outliers, MulRead.z_score_filter, MulRead.npVar,
      MulRead.npMean, List.filter]

/-- Claim C6, amended: re-filtering an already-filtered batch with the same
method and threshold returns a subsequence of that batch (it can only shrink
it further; it does not always return it unchanged). -/
theorem C6_refilter_sublist (data : List ℚ) (m : String) (t : ℚ)
    (ys zs : List ℚ) (h1 : MulRead.filter_outliers data m t = .ok ys)
    (h2 : MulRead.filter_outliers ys m t = .ok zs) :
    zs.Sublist ys :=
  filter_outliers_ok_sublist ys m t zs h2

/-- Witness for C6_refilter_sublist on the batch [0,0,0,0,10,1000]. -/
theorem C6_witness :
    List.Sublist ([0, 0, 0, 0] : List ℚ) [0, 0, 0, 0, 10] :=
  C6_refilter_sublist [0, 0, 0, 0, 10, 1000] "z_score" 2 _ _
    (by norm_num [MulRead.filter_outliers, MulRead.z_score_filter,
      MulRead.npVar, MulRead.npMean, List.filter])
    (by norm_num [MulRead.filter_outliers, MulRead.z_score_filter,
      MulRead.npVar, MulRead.npMean, List.filter])

/-- Claim C7, counterexample: on the EMPTY batch an unknown method name does
not raise: the source returns [] before looking at the method, so the
universally quantified first half of the claim fails at the empty batch. -/
theorem C7_counterexample :
    ("bogus" ≠ "z_score") ∧ ("bogus" ≠ "iqr") ∧
    MulRead.filter_outliers [] "bogus" 2 = .ok [] :=
  ⟨by decide, by decide, rfl⟩

/-- Claim C7, amended: on a NON-EMPTY batch an unknown method name fails with
the invalid-method error, and filtering an empty batch yields an empty batch
whatever the method, as a no-op rather than an error. -/
theorem C7_invalid_method (data : List ℚ) (m : String) (t : ℚ) :
    (data ≠ [] → m ≠ "z_score" → m ≠ "iqr" →
      MulRead.filter_outliers data m t =
        .error ("Invalid outlier detection method: " ++ m)) ∧
    MulRead.filter_outliers [] m t = .ok [] := by
  constructor
  · intro hd h1 h2
    unfold MulRead.filter_outliers
    rw [if_neg (by simpa using hd), if_neg (by simpa using h1),
      if_neg (by simpa using h2)]
  · rfl

/-- Witness for C7_invalid_method at the batch [5] and method name bogus. -/
theorem C7_witness :
    MulRead.filter_outliers [5] "bogus" 2 =
      .error ("Invalid outlier detection method: " ++ "bogus") ∧
    MulRead.filter_outliers [] "bogus" 2 = .ok [] :=
  ⟨(C7_invalid_method [5] "bogus" 2).1 (by simp) (by decide) (by decide),
   (C7_invalid_method [] "bogus" 2).2⟩

